import Mathlib

/-!
Shallow embedding of `src/kernel/cpusysregs.h` from the arm-cpusysregs
repository: the feature-detection macros, the logical register id catalog,
the Linux ioctl / macOS sockopt command-code derivation, and the numeric
MSR/MRS instruction-forging macros, together with proofs of the
specification claims about them.

Machine integers are modelled as `Nat`; all the C expressions involved
operate on non-negative values well inside 64 bits, so no wrap-around
occurs and the embedding is exact.
-/

namespace Cpusysregs

/-! ### Feature detection macros (cpusysregs.h lines 45-67)

The C macros return a masked value that is used as a boolean condition;
we embed them as `Bool`, comparing the masked value with zero, which is
exactly the C truthiness of the returned expression. -/

/-- CSR_HAS_PAC(isar1,isar2) = (((isar1) & 0x00000FF0) || ((isar2) & 0x0000F000)) -/
def CSR_HAS_PAC (isar1 isar2 : Nat) : Bool :=
  (isar1 &&& 0x00000FF0 != 0) || (isar2 &&& 0x0000F000 != 0)

/-- CSR_HAS_RME(pfr0) = ((pfr0) & 0x00F0000000000000llu) -/
def CSR_HAS_RME (pfr0 : Nat) : Bool :=
  pfr0 &&& 0x00F0000000000000 != 0

/-- CSR_RME_VERSION(pfr0) = (((pfr0) >> 52) & 0x0F) -/
def CSR_RME_VERSION (pfr0 : Nat) : Nat :=
  (pfr0 >>> 52) &&& 0x0F

/-- CSR_HAS_CSV2_2(pfr0) = ((((pfr0) >> 56) & 0x0F) >= 2) -/
def CSR_HAS_CSV2_2 (pfr0 : Nat) : Bool :=
  decide (2 ≤ (pfr0 >>> 56) &&& 0x0F)

/-! ### Logical register id catalog (cpusysregs.h lines 76-104) -/

def _CSR_REG_BASE : Nat := 0x0000
def _CSR_REG2_BASE : Nat := 0x0100
def _CSR_REG_MASK : Nat := 0x00FF

def CSR_REG_AA64PFR0 : Nat := _CSR_REG_BASE ||| 0x00
def CSR_REG_AA64PFR1 : Nat := _CSR_REG_BASE ||| 0x01
def CSR_REG_AA64ISAR0 : Nat := _CSR_REG_BASE ||| 0x02
def CSR_REG_AA64ISAR1 : Nat := _CSR_REG_BASE ||| 0x03
def CSR_REG_AA64ISAR2 : Nat := _CSR_REG_BASE ||| 0x04
def CSR_REG_TCR : Nat := _CSR_REG_BASE ||| 0x05
def CSR_REG_MIDR : Nat := _CSR_REG_BASE ||| 0x06
def CSR_REG_MPIDR : Nat := _CSR_REG_BASE ||| 0x07
def CSR_REG_REVIDR : Nat := _CSR_REG_BASE ||| 0x08
def CSR_REG_TPIDRRO_EL0 : Nat := _CSR_REG_BASE ||| 0x09
def CSR_REG_TPIDR_EL0 : Nat := _CSR_REG_BASE ||| 0x0A
def CSR_REG_TPIDR_EL1 : Nat := _CSR_REG_BASE ||| 0x0C
def CSR_REG_SCXTNUM_EL0 : Nat := _CSR_REG_BASE ||| 0x0D
def CSR_REG_SCXTNUM_EL1 : Nat := _CSR_REG_BASE ||| 0x0E
def CSR_REG_SCTLR : Nat := _CSR_REG_BASE ||| 0x0F

def CSR_REG2_APIAKEY : Nat := _CSR_REG2_BASE ||| 0x00
def CSR_REG2_APIBKEY : Nat := _CSR_REG2_BASE ||| 0x01
def CSR_REG2_APDAKEY : Nat := _CSR_REG2_BASE ||| 0x02
def CSR_REG2_APDBKEY : Nat := _CSR_REG2_BASE ||| 0x03
def CSR_REG2_APGAKEY : Nat := _CSR_REG2_BASE ||| 0x04

/-- All 15 single-register ids declared in the header, in declaration order. -/
def singleRegIds : List Nat :=
  [CSR_REG_AA64PFR0, CSR_REG_AA64PFR1, CSR_REG_AA64ISAR0, CSR_REG_AA64ISAR1,
   CSR_REG_AA64ISAR2, CSR_REG_TCR, CSR_REG_MIDR, CSR_REG_MPIDR, CSR_REG_REVIDR,
   CSR_REG_TPIDRRO_EL0, CSR_REG_TPIDR_EL0, CSR_REG_TPIDR_EL1, CSR_REG_SCXTNUM_EL0,
   CSR_REG_SCXTNUM_EL1, CSR_REG_SCTLR]

/-- All 5 pair-register ids declared in the header, in declaration order. -/
def pairRegIds : List Nat :=
  [CSR_REG2_APIAKEY, CSR_REG2_APIBKEY, CSR_REG2_APDAKEY, CSR_REG2_APDBKEY,
   CSR_REG2_APGAKEY]

def allRegIds : List Nat := singleRegIds ++ pairRegIds

/-- CSR_REG_IS_SINGLE(reg) = (((reg) & ~_CSR_REG_MASK) == _CSR_REG_BASE).
The C complement ~0x00FF is taken on a 32-bit int, giving the mask
0xFFFFFF00. -/
def CSR_REG_IS_SINGLE (reg : Nat) : Bool :=
  (reg &&& 0xFFFFFF00) == _CSR_REG_BASE

/-- CSR_REG_IS_PAIR(reg) = (((reg) & ~_CSR_REG_MASK) == _CSR_REG2_BASE). -/
def CSR_REG_IS_PAIR (reg : Nat) : Bool :=
  (reg &&& 0xFFFFFF00) == _CSR_REG2_BASE

/-! ### Linux ioctl command codes (cpusysregs.h lines 118-125)

The header builds its ioctl codes with the standard `_IOR`/`_IOW` macros
of `<linux/ioctl.h>` (asm-generic layout, used on arm64): a code packs
dir (2 bits at offset 30), size (14 bits at 16), type (8 bits at 8) and
nr (8 bits at 0); `_IOC_WRITE = 1`, `_IOC_READ = 2`. -/

def _IOC (dir typ nr size : Nat) : Nat :=
  (dir <<< 30) ||| (size <<< 16) ||| (typ <<< 8) ||| nr

def _IOR (typ nr size : Nat) : Nat := _IOC 2 typ nr size

def _IOW (typ nr size : Nat) : Nat := _IOC 1 typ nr size

/-- sizeof(csr_u64_t) -/
def sizeof_csr_u64_t : Nat := 8

/-- sizeof(csr_pair_t): two csr_u64_t fields -/
def sizeof_csr_pair_t : Nat := 16

def _CSR_IOC_MAGIC : Nat := 0x10
def _CSR_IOC_MAGIC2 : Nat := 0x20

/-- Linux CSR_CMD_GET_REG(reg) = _IOR(_CSR_IOC_MAGIC, (reg) - _CSR_REG_BASE, csr_u64_t) -/
def linux_CSR_CMD_GET_REG (reg : Nat) : Nat :=
  _IOR _CSR_IOC_MAGIC (reg - _CSR_REG_BASE) sizeof_csr_u64_t

/-- Linux CSR_CMD_GET_REG2(reg) = _IOR(_CSR_IOC_MAGIC2, (reg) - _CSR_REG2_BASE, csr_pair_t) -/
def linux_CSR_CMD_GET_REG2 (reg : Nat) : Nat :=
  _IOR _CSR_IOC_MAGIC2 (reg - _CSR_REG2_BASE) sizeof_csr_pair_t

/-- Linux CSR_CMD_SET_REG(reg) = _IOW(_CSR_IOC_MAGIC, (reg) - _CSR_REG_BASE, csr_u64_t) -/
def linux_CSR_CMD_SET_REG (reg : Nat) : Nat :=
  _IOW _CSR_IOC_MAGIC (reg - _CSR_REG_BASE) sizeof_csr_u64_t

/-- Linux CSR_CMD_SET_REG2(reg) = _IOW(_CSR_IOC_MAGIC2, (reg) - _CSR_REG2_BASE, csr_pair_t) -/
def linux_CSR_CMD_SET_REG2 (reg : Nat) : Nat :=
  _IOW _CSR_IOC_MAGIC2 (reg - _CSR_REG2_BASE) sizeof_csr_pair_t

/-! ### macOS sockopt command codes (cpusysregs.h lines 134-138) -/

def _CSR_SOCKOPT_BASE : Nat := 0x00AC0000

def macos_CSR_CMD_GET_REG (reg : Nat) : Nat := _CSR_SOCKOPT_BASE + reg

def macos_CSR_CMD_GET_REG2 (reg : Nat) : Nat := _CSR_SOCKOPT_BASE + reg

def macos_CSR_CMD_SET_REG (reg : Nat) : Nat := _CSR_SOCKOPT_BASE + reg

def macos_CSR_CMD_SET_REG2 (reg : Nat) : Nat := _CSR_SOCKOPT_BASE + reg

/-- Transport base for Linux single-register reads: the code at relative id 0. -/
def linuxGetRegBase : Nat := _IOR _CSR_IOC_MAGIC 0 sizeof_csr_u64_t

/-- Transport base for Linux pair-register reads. -/
def linuxGetReg2Base : Nat := _IOR _CSR_IOC_MAGIC2 0 sizeof_csr_pair_t

/-- Transport base for Linux single-register writes. -/
def linuxSetRegBase : Nat := _IOW _CSR_IOC_MAGIC 0 sizeof_csr_u64_t

/-- Transport base for Linux pair-register writes. -/
def linuxSetReg2Base : Nat := _IOW _CSR_IOC_MAGIC2 0 sizeof_csr_pair_t

/-- Transport base for macOS single-register commands (same for get and set). -/
def macosRegBase : Nat := _CSR_SOCKOPT_BASE + _CSR_REG_BASE

/-- Transport base for macOS pair-register commands (same for get and set). -/
def macosReg2Base : Nat := _CSR_SOCKOPT_BASE + _CSR_REG2_BASE

/-- All Linux ioctl command codes derivable for the declared catalog,
one per (declared id, direction) combination. -/
def linuxAllCmdCodes : List Nat :=
  singleRegIds.map linux_CSR_CMD_GET_REG ++ singleRegIds.map linux_CSR_CMD_SET_REG ++
  pairRegIds.map linux_CSR_CMD_GET_REG2 ++ pairRegIds.map linux_CSR_CMD_SET_REG2

/-- All macOS sockopt command codes for get requests (set codes coincide). -/
def macosGetCmdCodes : List Nat :=
  singleRegIds.map macos_CSR_CMD_GET_REG ++ pairRegIds.map macos_CSR_CMD_GET_REG2

/-! ### Numeric instruction forging (cpusysregs.h lines 176, 238-242) -/

/-- CSR_SREG(op0, op1, crn, crm, op2) =
(((op0) << 19) | ((op1) << 16) | ((crn) << 12) | ((crm) << 8) | ((op2) << 5)) -/
def CSR_SREG (op0 op1 crn crm op2 : Nat) : Nat :=
  (op0 <<< 19) ||| (op1 <<< 16) ||| (crn <<< 12) ||| (crm <<< 8) ||| (op2 <<< 5)

/-- Instruction word emitted by CSR_MSR_NUM(sreg,value):
.inst 0xd5000000|(sreg)|(gpr index of the value operand). -/
def CSR_MSR_NUM (sreg gpr : Nat) : Nat := 0xd5000000 ||| sreg ||| gpr

/-- Instruction word emitted by CSR_MRS_NUM(result,sreg):
.inst 0xd5200000|(sreg)|(gpr index of the result operand). -/
def CSR_MRS_NUM (sreg gpr : Nat) : Nat := 0xd5200000 ||| sreg ||| gpr

/-! ### Simulated privileged agent (for the error-handling claim)

The agent that executes Get/Set requests lives in the kernel-module
sources, which are not part of the interface header; we model its
access-mode enforcement from the specification. -/

inductive CsrAccess where
  | RO
  | RW
deriving DecidableEq

inductive CsrError where
  | UnknownRegister
  | UnsupportedOperation
deriving DecidableEq

/-- Read-only register ids: lines 80-88 of the header annotate ids
0x00-0x08 as read-only, and the spec's id table also classifies the
System Control register (0x0F) as read-only. -/
def readOnlyRegIds : List Nat :=
  [CSR_REG_AA64PFR0, CSR_REG_AA64PFR1, CSR_REG_AA64ISAR0, CSR_REG_AA64ISAR1,
   CSR_REG_AA64ISAR2, CSR_REG_TCR, CSR_REG_MIDR, CSR_REG_MPIDR, CSR_REG_REVIDR,
   CSR_REG_SCTLR]

/-- Access mode of a declared register id, `none` for an unknown id. -/
def regAccess (reg : Nat) : Option CsrAccess :=
  if readOnlyRegIds.contains reg then some CsrAccess.RO
  else if singleRegIds.contains reg || pairRegIds.contains reg then some CsrAccess.RW
  else none

/-- Modelled from the spec: the privileged agent's handling of a Set
request (the kernel-module set-handler itself is not under src/, only
its interface header is). Per spec section 4.4 and section 7, a Set on a
read-only register id is rejected with an UnsupportedOperation outcome
and the simulated register store is left unmodified; a Set on an
undeclared id fails with UnknownRegister; otherwise the store is
updated at that id. -/
def csr_set_reg (store : Nat → Nat) (reg val : Nat) :
    Option CsrError × (Nat → Nat) :=
  match regAccess reg with
  | none => (some CsrError.UnknownRegister, store)
  | some CsrAccess.RO => (some CsrError.UnsupportedOperation, store)
  | some CsrAccess.RW => (none, fun r => if r = reg then val else store r)

/-! ### Arithmetic helper lemmas -/

/-- Bitwise OR of a multiple of 2^k with a value below 2^k is addition. -/
theorem lor_small (x r k : Nat) (hx : x % 2 ^ k = 0) (hr : r < 2 ^ k) :
    x ||| r = x + r := by
  have h2 := Nat.div_add_mod x (2 ^ k)
  rw [hx, Nat.add_zero] at h2
  calc x ||| r = 2 ^ k * (x / 2 ^ k) ||| r := by rw [h2]
    _ = 2 ^ k * (x / 2 ^ k) + r := (Nat.mul_add_lt_is_or hr (x / 2 ^ k)).symm
    _ = x + r := by rw [h2]

/-- Masking with a field mask (2^n - 1) <<< k keeps exactly the n-bit
field at offset k. -/
theorem and_mask_shift (x k n : Nat) :
    x &&& (2 ^ n - 1) <<< k = ((x >>> k) % 2 ^ n) <<< k := by
  apply Nat.eq_of_testBit_eq
  intro i
  simp only [Nat.testBit_and, Nat.testBit_shiftLeft, Nat.testBit_shiftRight,
    Nat.testBit_mod_two_pow, Nat.testBit_two_pow_sub_one, ge_iff_le]
  by_cases h : k ≤ i
  · have hi : k + (i - k) = i := by omega
    simp [h, hi, Bool.and_comm]
  · simp [h]

/-- A left shift is zero exactly when the shifted value is zero. -/
theorem shiftLeft_eq_zero_iff (y k : Nat) : y <<< k = 0 ↔ y = 0 := by
  rw [Nat.shiftLeft_eq, Nat.mul_eq_zero]
  have h2 : 0 < 2 ^ k := Nat.pos_pow_of_pos k (by omega)
  omega

/-- In-range fields make CSR_SREG a plain sum of weighted fields. -/
theorem sreg_eq_sum (op0 op1 crn crm op2 : Nat)
    (h : op0 < 4 ∧ op1 < 8 ∧ crn < 16 ∧ crm < 16 ∧ op2 < 8) :
    CSR_SREG op0 op1 crn crm op2 =
      op0 * 524288 + op1 * 65536 + crn * 4096 + crm * 256 + op2 * 32 := by
  obtain ⟨h0, h1, h2, h3, h4⟩ := h
  show (op0 <<< 19) ||| (op1 <<< 16) ||| (crn <<< 12) ||| (crm <<< 8) ||| (op2 <<< 5) = _
  rw [Nat.shiftLeft_eq, Nat.shiftLeft_eq, Nat.shiftLeft_eq, Nat.shiftLeft_eq,
    Nat.shiftLeft_eq, Nat.or_assoc, Nat.or_assoc, Nat.or_assoc]
  rw [lor_small (crm * 2 ^ 8) (op2 * 2 ^ 5) 8 (by omega) (by omega)]
  rw [lor_small (crn * 2 ^ 12) (crm * 2 ^ 8 + op2 * 2 ^ 5) 12 (by omega) (by omega)]
  rw [lor_small (op1 * 2 ^ 16) (crn * 2 ^ 12 + (crm * 2 ^ 8 + op2 * 2 ^ 5)) 16
    (by omega) (by omega)]
  rw [lor_small (op0 * 2 ^ 19) (op1 * 2 ^ 16 + (crn * 2 ^ 12 + (crm * 2 ^ 8 + op2 * 2 ^ 5))) 19
    (by omega) (by omega)]
  omega

/-! ### Claim theorems -/

/-- C2: for every declared logical register id and each transport (Linux
ioctl, macOS sockopt), the derived command code equals a
transport-specific base, determined by the direction and the
cardinality, plus the id's offset relative to its range base
(_CSR_REG_BASE for single registers, _CSR_REG2_BASE for pair
registers). -/
theorem cmd_code_is_base_plus_offset :
    (∀ reg ∈ singleRegIds,
      linux_CSR_CMD_GET_REG reg = linuxGetRegBase + (reg - _CSR_REG_BASE) ∧
      linux_CSR_CMD_SET_REG reg = linuxSetRegBase + (reg - _CSR_REG_BASE) ∧
      macos_CSR_CMD_GET_REG reg = macosRegBase + (reg - _CSR_REG_BASE) ∧
      macos_CSR_CMD_SET_REG reg = macosRegBase + (reg - _CSR_REG_BASE)) ∧
    (∀ reg ∈ pairRegIds,
      linux_CSR_CMD_GET_REG2 reg = linuxGetReg2Base + (reg - _CSR_REG2_BASE) ∧
      linux_CSR_CMD_SET_REG2 reg = linuxSetReg2Base + (reg - _CSR_REG2_BASE) ∧
      macos_CSR_CMD_GET_REG2 reg = macosReg2Base + (reg - _CSR_REG2_BASE) ∧
      macos_CSR_CMD_SET_REG2 reg = macosReg2Base + (reg - _CSR_REG2_BASE)) := by
  decide

/-- C2 witness: the derivation at the concrete id CSR_REG_AA64ISAR1. -/
theorem cmd_code_is_base_plus_offset_witness :
    linux_CSR_CMD_GET_REG CSR_REG_AA64ISAR1 =
      linuxGetRegBase + (CSR_REG_AA64ISAR1 - _CSR_REG_BASE) ∧
    linux_CSR_CMD_SET_REG CSR_REG_AA64ISAR1 =
      linuxSetRegBase + (CSR_REG_AA64ISAR1 - _CSR_REG_BASE) ∧
    macos_CSR_CMD_GET_REG CSR_REG_AA64ISAR1 =
      macosRegBase + (CSR_REG_AA64ISAR1 - _CSR_REG_BASE) ∧
    macos_CSR_CMD_SET_REG CSR_REG_AA64ISAR1 =
      macosRegBase + (CSR_REG_AA64ISAR1 - _CSR_REG_BASE) :=
  cmd_code_is_base_plus_offset.1 CSR_REG_AA64ISAR1 (by decide)

/-- C3 counterexample: on the macOS transport the get and set command
codes of the same register id are equal (0x00AC0000 for
CSR_REG_AA64PFR0), so the codes of the four command macros are not
pairwise distinct over distinct (id, direction) combinations. -/
theorem cmd_code_macos_get_set_collide :
    macos_CSR_CMD_GET_REG CSR_REG_AA64PFR0 = macos_CSR_CMD_SET_REG CSR_REG_AA64PFR0 ∧
    macos_CSR_CMD_GET_REG CSR_REG_AA64PFR0 = 0x00AC0000 := by
  decide

/-- C3 (amended): on the Linux ioctl transport the 40 command codes of
all (declared id, direction) combinations are pairwise distinct, every
relative id fits the 8-bit ioctl command-number field and every code
fits 32 bits; on the macOS transport the codes of distinct declared ids
are pairwise distinct and fit 24 bits, while the get and set codes of
one id coincide by design, direction being carried by the choice of
syscall. -/
theorem cmd_code_uniqueness :
    List.Pairwise (fun a b => a ≠ b) linuxAllCmdCodes ∧
    List.Pairwise (fun a b => a ≠ b) macosGetCmdCodes ∧
    (∀ reg ∈ singleRegIds,
      reg - _CSR_REG_BASE < 2 ^ 8 ∧
      linux_CSR_CMD_GET_REG reg < 2 ^ 32 ∧
      linux_CSR_CMD_SET_REG reg < 2 ^ 32 ∧
      macos_CSR_CMD_GET_REG reg < 2 ^ 24 ∧
      macos_CSR_CMD_GET_REG reg = macos_CSR_CMD_SET_REG reg) ∧
    (∀ reg ∈ pairRegIds,
      reg - _CSR_REG2_BASE < 2 ^ 8 ∧
      linux_CSR_CMD_GET_REG2 reg < 2 ^ 32 ∧
      linux_CSR_CMD_SET_REG2 reg < 2 ^ 32 ∧
      macos_CSR_CMD_GET_REG2 reg < 2 ^ 24 ∧
      macos_CSR_CMD_GET_REG2 reg = macos_CSR_CMD_SET_REG2 reg) := by
  decide

/-- C3 witness: the code-width bounds at the concrete id CSR_REG2_APIAKEY. -/
theorem cmd_code_uniqueness_witness :
    CSR_REG2_APIAKEY - _CSR_REG2_BASE < 2 ^ 8 ∧
    linux_CSR_CMD_GET_REG2 CSR_REG2_APIAKEY < 2 ^ 32 ∧
    linux_CSR_CMD_SET_REG2 CSR_REG2_APIAKEY < 2 ^ 32 ∧
    macos_CSR_CMD_GET_REG2 CSR_REG2_APIAKEY < 2 ^ 24 ∧
    macos_CSR_CMD_GET_REG2 CSR_REG2_APIAKEY = macos_CSR_CMD_SET_REG2 CSR_REG2_APIAKEY :=
  cmd_code_uniqueness.2.2.2 CSR_REG2_APIAKEY (by decide)

/-- C4: the 15 declared single ids and the 5 declared pair ids are
pairwise distinct; every declared single id satisfies CSR_REG_IS_SINGLE
and not CSR_REG_IS_PAIR, every declared pair id satisfies
CSR_REG_IS_PAIR and not CSR_REG_IS_SINGLE, so the two ranges never
overlap and cardinality is decided by an arithmetic range test. -/
theorem reg_id_ranges_disjoint :
    List.Pairwise (fun a b => a ≠ b) allRegIds ∧
    (∀ reg ∈ singleRegIds, CSR_REG_IS_SINGLE reg = true ∧ CSR_REG_IS_PAIR reg = false) ∧
    (∀ reg ∈ pairRegIds, CSR_REG_IS_PAIR reg = true ∧ CSR_REG_IS_SINGLE reg = false) := by
  decide

/-- C4 witness: the classification at the concrete ids CSR_REG_SCTLR and
CSR_REG2_APGAKEY. -/
theorem reg_id_ranges_disjoint_witness :
    (CSR_REG_IS_SINGLE CSR_REG_SCTLR = true ∧ CSR_REG_IS_PAIR CSR_REG_SCTLR = false) ∧
    (CSR_REG_IS_PAIR CSR_REG2_APGAKEY = true ∧ CSR_REG_IS_SINGLE CSR_REG2_APGAKEY = false) :=
  ⟨reg_id_ranges_disjoint.2.1 CSR_REG_SCTLR (by decide),
   reg_id_ranges_disjoint.2.2 CSR_REG2_APGAKEY (by decide)⟩

/-- C5 counterexample: relative id 0x0B lies between 0x09 and 0x0E but
is declared by no register of the catalog, so the range 0x09-0x0E is not
fully assigned. -/
theorem thread_ctx_id_gap :
    (_CSR_REG_BASE ||| 0x0B) ∉ singleRegIds ∧ (_CSR_REG_BASE ||| 0x0B) ∉ pairRegIds := by
  decide

/-- C5 (amended): of the relative ids 0x09 to 0x0E, exactly
0x09, 0x0A, 0x0C, 0x0D and 0x0E are declared Thread/Context id
registers of the catalog; relative id 0x0B is left unassigned. -/
theorem thread_ctx_id_assignment :
    (_CSR_REG_BASE ||| 0x09) ∈ singleRegIds ∧
    (_CSR_REG_BASE ||| 0x0A) ∈ singleRegIds ∧
    (_CSR_REG_BASE ||| 0x0B) ∉ singleRegIds ∧
    (_CSR_REG_BASE ||| 0x0C) ∈ singleRegIds ∧
    (_CSR_REG_BASE ||| 0x0D) ∈ singleRegIds ∧
    (_CSR_REG_BASE ||| 0x0E) ∈ singleRegIds ∧
    CSR_REG_TPIDRRO_EL0 = _CSR_REG_BASE ||| 0x09 ∧
    CSR_REG_TPIDR_EL0 = _CSR_REG_BASE ||| 0x0A ∧
    CSR_REG_TPIDR_EL1 = _CSR_REG_BASE ||| 0x0C ∧
    CSR_REG_SCXTNUM_EL0 = _CSR_REG_BASE ||| 0x0D ∧
    CSR_REG_SCXTNUM_EL1 = _CSR_REG_BASE ||| 0x0E := by
  decide

/-- C1: CSR_SREG packs op0, op1, CRn, CRm, op2 at bit offsets 19, 16,
12, 8 and 5 (so that, for in-range fields, op0 occupies bits 19-20, op1
bits 16-18, CRn bits 12-15, CRm bits 8-11, op2 bits 5-7), and the forged
instruction words OR this encoding and the general-purpose-register
number (bits 0-4) into the templates 0xD5000000 (MSR, write) and
0xD5200000 (MRS, read). -/
theorem sreg_numeric_encoding (op0 op1 crn crm op2 r : Nat)
    (h : op0 < 4 ∧ op1 < 8 ∧ crn < 16 ∧ crm < 16 ∧ op2 < 8 ∧ r < 32) :
    CSR_SREG op0 op1 crn crm op2 =
      (op0 <<< 19) ||| (op1 <<< 16) ||| (crn <<< 12) ||| (crm <<< 8) ||| (op2 <<< 5) ∧
    (CSR_SREG op0 op1 crn crm op2 >>> 19) % 4 = op0 ∧
    (CSR_SREG op0 op1 crn crm op2 >>> 16) % 8 = op1 ∧
    (CSR_SREG op0 op1 crn crm op2 >>> 12) % 16 = crn ∧
    (CSR_SREG op0 op1 crn crm op2 >>> 8) % 16 = crm ∧
    (CSR_SREG op0 op1 crn crm op2 >>> 5) % 8 = op2 ∧
    CSR_MSR_NUM (CSR_SREG op0 op1 crn crm op2) r =
      0xd5000000 ||| CSR_SREG op0 op1 crn crm op2 ||| r ∧
    CSR_MRS_NUM (CSR_SREG op0 op1 crn crm op2) r =
      0xd5200000 ||| CSR_SREG op0 op1 crn crm op2 ||| r ∧
    CSR_MSR_NUM (CSR_SREG op0 op1 crn crm op2) r % 32 = r ∧
    CSR_MRS_NUM (CSR_SREG op0 op1 crn crm op2) r % 32 = r := by
  obtain ⟨h0, h1, h2, h3, h4, h5⟩ := h
  have hS := sreg_eq_sum op0 op1 crn crm op2 ⟨h0, h1, h2, h3, h4⟩
  have hSlt : CSR_SREG op0 op1 crn crm op2 < 2 ^ 21 := by omega
  have hmsr : CSR_MSR_NUM (CSR_SREG op0 op1 crn crm op2) r =
      0xd5000000 + CSR_SREG op0 op1 crn crm op2 + r := by
    show 0xd5000000 ||| CSR_SREG op0 op1 crn crm op2 ||| r = _
    rw [lor_small 0xd5000000 (CSR_SREG op0 op1 crn crm op2) 21 (by norm_num) hSlt]
    rw [lor_small (0xd5000000 + CSR_SREG op0 op1 crn crm op2) r 5 (by omega) (by omega)]
  have hmrs : CSR_MRS_NUM (CSR_SREG op0 op1 crn crm op2) r =
      0xd5200000 + CSR_SREG op0 op1 crn crm op2 + r := by
    show 0xd5200000 ||| CSR_SREG op0 op1 crn crm op2 ||| r = _
    rw [lor_small 0xd5200000 (CSR_SREG op0 op1 crn crm op2) 21 (by norm_num) hSlt]
    rw [lor_small (0xd5200000 + CSR_SREG op0 op1 crn crm op2) r 5 (by omega) (by omega)]
  refine ⟨rfl, ?_, ?_, ?_, ?_, ?_, rfl, rfl, ?_, ?_⟩
  · rw [Nat.shiftRight_eq_div_pow]; omega
  · rw [Nat.shiftRight_eq_div_pow]; omega
  · rw [Nat.shiftRight_eq_div_pow]; omega
  · rw [Nat.shiftRight_eq_div_pow]; omega
  · rw [Nat.shiftRight_eq_div_pow]; omega
  · rw [hmsr]; omega
  · rw [hmrs]; omega

/-- C1 witness: the encoding of apibkeylo_el1, CSR_SREG(3, 0, 2, 1, 2),
moved to and from general-purpose register 7. -/
theorem sreg_numeric_encoding_witness :
    CSR_SREG 3 0 2 1 2 =
      (3 <<< 19) ||| (0 <<< 16) ||| (2 <<< 12) ||| (1 <<< 8) ||| (2 <<< 5) ∧
    (CSR_SREG 3 0 2 1 2 >>> 19) % 4 = 3 ∧
    (CSR_SREG 3 0 2 1 2 >>> 16) % 8 = 0 ∧
    (CSR_SREG 3 0 2 1 2 >>> 12) % 16 = 2 ∧
    (CSR_SREG 3 0 2 1 2 >>> 8) % 16 = 1 ∧
    (CSR_SREG 3 0 2 1 2 >>> 5) % 8 = 2 ∧
    CSR_MSR_NUM (CSR_SREG 3 0 2 1 2) 7 = 0xd5000000 ||| CSR_SREG 3 0 2 1 2 ||| 7 ∧
    CSR_MRS_NUM (CSR_SREG 3 0 2 1 2) 7 = 0xd5200000 ||| CSR_SREG 3 0 2 1 2 ||| 7 ∧
    CSR_MSR_NUM (CSR_SREG 3 0 2 1 2) 7 % 32 = 7 ∧
    CSR_MRS_NUM (CSR_SREG 3 0 2 1 2) 7 % 32 = 7 :=
  sreg_numeric_encoding 3 0 2 1 2 7 (by decide)

/-- C9: for in-range fields, CSR_SREG sets no bit outside bits 5-20 (it
is below 2^21 and a multiple of 2^5), so OR-ing it and a
general-purpose-register index below 32 into the templates 0xD5000000
or 0xD5200000 never alters the fixed opcode bits 21-31, and the
register index occupies only bits 0-4. -/
theorem sreg_encoding_safety (op0 op1 crn crm op2 r : Nat)
    (h : op0 < 4 ∧ op1 < 8 ∧ crn < 16 ∧ crm < 16 ∧ op2 < 8 ∧ r < 32) :
    CSR_SREG op0 op1 crn crm op2 < 2 ^ 21 ∧
    CSR_SREG op0 op1 crn crm op2 % 2 ^ 5 = 0 ∧
    CSR_MSR_NUM (CSR_SREG op0 op1 crn crm op2) r >>> 21 = 0xd5000000 >>> 21 ∧
    CSR_MRS_NUM (CSR_SREG op0 op1 crn crm op2) r >>> 21 = 0xd5200000 >>> 21 ∧
    CSR_MSR_NUM (CSR_SREG op0 op1 crn crm op2) r % 2 ^ 5 = r ∧
    CSR_MRS_NUM (CSR_SREG op0 op1 crn crm op2) r % 2 ^ 5 = r := by
  obtain ⟨h0, h1, h2, h3, h4, h5⟩ := h
  have hS := sreg_eq_sum op0 op1 crn crm op2 ⟨h0, h1, h2, h3, h4⟩
  have hSlt : CSR_SREG op0 op1 crn crm op2 < 2 ^ 21 := by omega
  have hmsr : CSR_MSR_NUM (CSR_SREG op0 op1 crn crm op2) r =
      0xd5000000 + CSR_SREG op0 op1 crn crm op2 + r := by
    show 0xd5000000 ||| CSR_SREG op0 op1 crn crm op2 ||| r = _
    rw [lor_small 0xd5000000 (CSR_SREG op0 op1 crn crm op2) 21 (by norm_num) hSlt]
    rw [lor_small (0xd5000000 + CSR_SREG op0 op1 crn crm op2) r 5 (by omega) (by omega)]
  have hmrs : CSR_MRS_NUM (CSR_SREG op0 op1 crn crm op2) r =
      0xd5200000 + CSR_SREG op0 op1 crn crm op2 + r := by
    show 0xd5200000 ||| CSR_SREG op0 op1 crn crm op2 ||| r = _
    rw [lor_small 0xd5200000 (CSR_SREG op0 op1 crn crm op2) 21 (by norm_num) hSlt]
    rw [lor_small (0xd5200000 + CSR_SREG op0 op1 crn crm op2) r 5 (by omega) (by omega)]
  refine ⟨hSlt, by omega, ?_, ?_, ?_, ?_⟩
  · rw [hmsr]; simp only [Nat.shiftRight_eq_div_pow]; omega
  · rw [hmrs]; simp only [Nat.shiftRight_eq_div_pow]; omega
  · rw [hmsr]; omega
  · rw [hmrs]; omega

/-- C9 witness: the encoding of scxtnum_el0, CSR_SREG(3, 3, 13, 0, 7),
with general-purpose register 0. -/
theorem sreg_encoding_safety_witness :
    CSR_SREG 3 3 13 0 7 < 2 ^ 21 ∧
    CSR_SREG 3 3 13 0 7 % 2 ^ 5 = 0 ∧
    CSR_MSR_NUM (CSR_SREG 3 3 13 0 7) 0 >>> 21 = 0xd5000000 >>> 21 ∧
    CSR_MRS_NUM (CSR_SREG 3 3 13 0 7) 0 >>> 21 = 0xd5200000 >>> 21 ∧
    CSR_MSR_NUM (CSR_SREG 3 3 13 0 7) 0 % 2 ^ 5 = 0 ∧
    CSR_MRS_NUM (CSR_SREG 3 3 13 0 7) 0 % 2 ^ 5 = 0 :=
  sreg_encoding_safety 3 3 13 0 7 0 (by decide)

/-- C6: CSR_HAS_PAC is true exactly when one of the two 4-bit subfields
of isar1 at bits 4-7 and 8-11 is nonzero or the 4-bit subfield of isar2
at bits 12-15 is nonzero; in particular it is false at (0, 0) and true
at (0x10, 0). -/
theorem has_pac_iff (isar1 isar2 : Nat) :
    (CSR_HAS_PAC isar1 isar2 = true ↔
      ((isar1 >>> 4) % 16 ≠ 0 ∨ (isar1 >>> 8) % 16 ≠ 0 ∨ (isar2 >>> 12) % 16 ≠ 0)) ∧
    CSR_HAS_PAC 0 0 = false ∧
    CSR_HAS_PAC 0x10 0 = true := by
  refine ⟨?_, by decide, by decide⟩
  have e1 : (0x00000FF0 : Nat) = (2 ^ 8 - 1) <<< 4 := by norm_num [Nat.shiftLeft_eq]
  have e2 : (0x0000F000 : Nat) = (2 ^ 4 - 1) <<< 12 := by norm_num [Nat.shiftLeft_eq]
  show ((isar1 &&& 0x00000FF0 != 0) || (isar2 &&& 0x0000F000 != 0)) = true ↔ _
  rw [e1, e2, and_mask_shift, and_mask_shift]
  simp only [Bool.or_eq_true, bne_iff_ne, ne_eq, shiftLeft_eq_zero_iff,
    Nat.shiftRight_eq_div_pow]
  omega

/-- C7: CSR_HAS_CSV2_2 returns true exactly when the 4-bit field at bits
56-59 of pfr0, read as an unsigned value, is at least 2; the exhaustive
enumeration over the 16 possible nibble values is included. -/
theorem csv2_2_threshold (pfr0 : Nat) :
    (CSR_HAS_CSV2_2 pfr0 = true ↔ 2 ≤ (pfr0 >>> 56) % 16) ∧
    ((List.range 16).all fun n => CSR_HAS_CSV2_2 (n <<< 56) == decide (2 ≤ n)) = true := by
  refine ⟨?_, by decide⟩
  have e : (0x0F : Nat) = 2 ^ 4 - 1 := by norm_num
  show decide (2 ≤ (pfr0 >>> 56) &&& 0x0F) = true ↔ _
  rw [e, Nat.and_pow_two_sub_one_eq_mod]
  simp only [decide_eq_true_eq]

/-- C8: CSR_HAS_RME is true exactly when the nibble at bits 52-55 of
pfr0 is nonzero, and CSR_RME_VERSION returns exactly that nibble, an
ordinal in the range 0-15; in particular
CSR_RME_VERSION(0x0010000000000000) = 1. -/
theorem rme_detection (pfr0 : Nat) :
    (CSR_HAS_RME pfr0 = true ↔ (pfr0 >>> 52) % 16 ≠ 0) ∧
    CSR_RME_VERSION pfr0 = (pfr0 >>> 52) % 16 ∧
    CSR_RME_VERSION pfr0 < 16 ∧
    CSR_RME_VERSION 0x0010000000000000 = 1 := by
  have e : (0x0F : Nat) = 2 ^ 4 - 1 := by norm_num
  have hver : CSR_RME_VERSION pfr0 = (pfr0 >>> 52) % 16 := by
    show (pfr0 >>> 52) &&& 0x0F = _
    rw [e, Nat.and_pow_two_sub_one_eq_mod]
  refine ⟨?_, hver, by rw [hver]; omega, by decide⟩
  have e2 : (0x00F0000000000000 : Nat) = (2 ^ 4 - 1) <<< 52 := by
    norm_num [Nat.shiftLeft_eq]
  show (pfr0 &&& 0x00F0000000000000 != 0) = true ↔ _
  rw [e2, and_mask_shift]
  simp only [bne_iff_ne, ne_eq, shiftLeft_eq_zero_iff]
  norm_num

/-- C10: a Set request targeting the read-only register id
CSR_REG_AA64PFR0 is rejected by the modelled privileged agent with an
UnsupportedOperation error, and the simulated register store is
returned unmodified. -/
theorem set_readonly_rejected (store : Nat → Nat) (val : Nat) :
    csr_set_reg store CSR_REG_AA64PFR0 val =
      (some CsrError.UnsupportedOperation, store) := rfl

end Cpusysregs
